import Mathlib

/-!
Verification development for the kubectl-mc multi-cluster fan-out engine.

Shallow embedding of the Go sources:
  * pkg/executor (types.go, executor.go): `ClusterResult`, `AggregatedResults`,
    `ResultSummary`, `NewAggregatedResults`, `AddResult`, and the result-collection
    loop of `Executor.Get`.
  * cmd/describe.go / cmd/get.go: `filterClusters`, `matchesAny`, and the
    all-clusters-failed error decision of `runGet` / `runDescribe`.
  * pkg/discovery: `parseClusterProfile`, `isClusterHealthy`.
  * pkg/aggregator/table.go: `AggregateGetResults` (collection, sorting,
    empty-notice), `calculateAge`, `formatDuration`.
  * The Go standard library `path/filepath.Match` (with `scanChunk`,
    `matchChunk`, `getEsc`), which `matchesAny` calls, is embedded faithfully
    for the non-Windows build (`Separator = '/'`, backslash is an escape).

Strings are modelled as Lean `String`; ordering comparisons are performed on
`String.toList` because Go compares strings byte-wise and, for valid UTF-8,
byte-wise order coincides with code-point (Char) lexicographic order.
Go machine integers that only ever hold small non-negative counts are `Nat`;
`time.Duration` (int64 nanoseconds) is `Int`.
-/

namespace KubectlMC

/-- `discovery.ClusterInfo` (pkg/discovery/types.go). `Namespace` is where the
ClusterProfile record lives; `Labels` models the Go string map as an
association list. -/
structure ClusterInfo where
  Name : String
  DisplayName : String
  Namespace : String
  KubernetesVersion : String
  Healthy : Bool
  Labels : List (String × String)
deriving DecidableEq, Repr

/-- The fields of a `k8s.io/.../unstructured.Unstructured` object that the table
aggregator reads while collecting and sorting items: `metadata.namespace`,
`metadata.name`, `metadata.creationTimestamp`. `none` models an absent field
(`NestedString` reporting `found = false`). Fields used only for rendering cell
text (status, replica counts, ports, ...) do not affect the claims about
collection, ordering and emptiness and are not carried. -/
structure UnstructuredObj where
  metadataNamespace : Option String
  metadataName : Option String
  creationTimestamp : Option String
deriving DecidableEq, Repr

/-- Go `unstructured.NestedString(obj, "metadata", "namespace")`: returns the
empty string when the field is absent. -/
def nsOf (obj : UnstructuredObj) : String :=
  obj.metadataNamespace.getD ""

/-- Go `unstructured.NestedString(obj, "metadata", "name")`: returns the empty
string when the field is absent. -/
def nameOf (obj : UnstructuredObj) : String :=
  obj.metadataName.getD ""

/-- `executor.ClusterResult` (pkg/executor/types.go). `Error` is `Option String`
because Go `error` is nilable. `Output` is the describe narrative (the spec's
`narrativeOutput`; constructed in the aggregator tests as
`ClusterResult{..., Output: ...}` and read by `AggregateDescribeResults`); its
zero value `""` is what get results and failed results carry. -/
structure ClusterResult where
  ClusterName : String
  Success : Bool
  Items : List UnstructuredObj
  Output : String
  Error : Option String
deriving DecidableEq, Repr

/-- `executor.ResultSummary` (pkg/executor/types.go). `Errors` models the Go
map `map[string]error` as an association list with unique keys maintained by
`mapAssign`. -/
structure ResultSummary where
  Total : Nat
  Successful : Nat
  Failed : Nat
  Errors : List (String × String)
deriving DecidableEq, Repr

/-- `executor.AggregatedResults` (pkg/executor/types.go). -/
structure AggregatedResults where
  Results : List ClusterResult
  Summary : ResultSummary
deriving DecidableEq, Repr

/-- Go map assignment `m[k] = v` on the association-list model of
`map[string]error`: overwrite the entry when the key is present, else append. -/
def mapAssign (m : List (String × String)) (k v : String) : List (String × String) :=
  if m.any (fun p => p.1 == k) then
    m.map (fun p => if p.1 == k then (k, v) else p)
  else
    m ++ [(k, v)]

/-- `executor.NewAggregatedResults` (pkg/executor/types.go:229-237). -/
def NewAggregatedResults (clusters : List ClusterInfo) : AggregatedResults :=
  { Results := []
    Summary := { Total := clusters.length, Successful := 0, Failed := 0, Errors := [] } }

/-- `executor.AggregatedResults.AddResult` (pkg/executor/types.go:240-251). -/
def AddResult (ar : AggregatedResults) (result : ClusterResult) : AggregatedResults :=
  { Results := ar.Results ++ [result]
    Summary :=
      if result.Success then
        { ar.Summary with Successful := ar.Summary.Successful + 1 }
      else
        { ar.Summary with
            Failed := ar.Summary.Failed + 1
            Errors :=
              match result.Error with
              | some e => mapAssign ar.Summary.Errors result.ClusterName e
              | none => ar.Summary.Errors } }

/-- The result-collection phase of `Executor.Get` (pkg/executor/executor.go:37-81):
one goroutine per cluster computes `getFromCluster` (a total function: every
control path returns a `ClusterResult`) and sends exactly one result on the
channel; the collector drains the channel, so the aggregate is a left fold of
`AddResult` over the arrivals. `delivered` is the channel arrival order, an
arbitrary permutation of the per-cluster outcomes (the scheduler decides it);
theorems quantify over every such permutation. -/
def executorGetRound (clusters : List ClusterInfo) (delivered : List ClusterResult) :
    AggregatedResults :=
  delivered.foldl AddResult (NewAggregatedResults clusters)

/-! ### Go `path/filepath.Match` (match.go, non-Windows build)

`matchesAny` in cmd/describe.go calls `filepath.Match`. The embedding mirrors
the Go source structure: `scanChunk`, `matchChunk`, `getEsc`, and the main
`Match` loop. Errors (`ErrBadPattern`) are `Except.error ()`.

The Go loops are not structurally recursive; each iteration of the main loop
consumes at least one pattern character (`scanChunk` consumes all leading
stars plus a non-empty chunk), so `length + 1` iterations always suffice and
the fuel parameters below never run out on the arguments used. -/

/-- The `for len(pattern) > 0 && pattern[0] == '*'` prelude of `scanChunk`:
consume leading stars, report whether any star was seen. -/
def scanStars : List Char → Bool × List Char
  | [] => (false, [])
  | c :: cs => if c = '*' then (true, (scanStars cs).2) else (false, c :: cs)

/-- The scan loop of `scanChunk`: copy characters into the chunk until an
unbracketed `*`, tracking `inrange` across `[`/`]` and skipping the character
after a backslash (when one exists). Returns `(chunk, rest)`. -/
def scanChunkBody (inrange : Bool) : List Char → List Char × List Char
  | [] => ([], [])
  | '\\' :: c2 :: cs =>
      let (ch, r) := scanChunkBody inrange cs
      ('\\' :: c2 :: ch, r)
  | ['\\'] => (['\\'], [])
  | c :: cs =>
      if c = '[' then
        let (ch, r) := scanChunkBody true cs
        (c :: ch, r)
      else if c = ']' then
        let (ch, r) := scanChunkBody false cs
        (c :: ch, r)
      else if c = '*' ∧ ¬ inrange then
        ([], c :: cs)
      else
        let (ch, r) := scanChunkBody inrange cs
        (c :: ch, r)

/-- Go `scanChunk`: gets the next segment of the pattern; a chunk is all the
pattern up to the next unbracketed `*`, and `star` reports leading stars. -/
def scanChunk (pattern : List Char) : Bool × List Char × List Char :=
  let (star, rest) := scanStars pattern
  let (chunk, rest2) := scanChunkBody false rest
  (star, chunk, rest2)

/-- Go `getEsc`: gets a possibly-escaped character from the inside of a
character class. Errors on an empty chunk, a leading `-` or `]`, a trailing
backslash, and when nothing follows the character (the class is unclosed). -/
def getEsc : List Char → Except Unit (Char × List Char)
  | [] => .error ()
  | c :: cs =>
      if c = '-' ∨ c = ']' then .error ()
      else if c = '\\' then
        match cs with
        | [] => .error ()
        | r :: rest => if rest.isEmpty then .error () else .ok (r, rest)
      else if cs.isEmpty then .error ()
      else .ok (c, cs)

/-- The range-parsing loop inside `matchChunk`'s `[` case: parse `lo`(-`hi`)
ranges until a closing `]` (which only closes after at least one range),
accumulating whether the character `r` fell in any range. -/
def rangesLoop : Nat → Char → Bool → Nat → List Char → Except Unit (Bool × List Char)
  | 0, _, _, _, _ => .error ()
  | fuel + 1, r, m, nrange, chunk =>
    match chunk with
    | ']' :: rest =>
        if 0 < nrange then .ok (m, rest)
        else .error ()
    | _ =>
        match getEsc chunk with
        | .error _ => .error ()
        | .ok (lo, c1) =>
            match c1 with
            | '-' :: c1tail =>
                match getEsc c1tail with
                | .error _ => .error ()
                | .ok (hi, c2) =>
                    rangesLoop fuel r (m || (lo ≤ r && r ≤ hi)) (nrange + 1) c2
            | _ => rangesLoop fuel r (m || (lo ≤ r && r ≤ lo)) (nrange + 1) c1

/-- Go `matchChunk` loop: checks whether `chunk` matches the beginning of `s`,
carrying the `failed` flag so the pattern is still checked for bad syntax after
a mismatch. `.ok (some t)` is Go's `(t, true, nil)`, `.ok none` is
`("", false, nil)`, `.error ()` is `ErrBadPattern`. In the unreachable branches
(`failed` protects every access to `s`) the Go code would have panicked; they
are written to keep the function total and are never taken. -/
def matchChunkLoop : Nat → Bool → List Char → List Char → Except Unit (Option (List Char))
  | _, failed0, [], s => if failed0 then .ok none else .ok (some s)
  | 0, _, _ :: _, _ => .error ()
  | fuel + 1, failed0, c :: ctail, s =>
    let failed := failed0 || s.isEmpty
    if c = '[' then
      let rs : Char × List Char :=
        if failed then (Char.ofNat 0, s)
        else
          match s with
          | [] => (Char.ofNat 0, [])
          | a :: as => (a, as)
      let ng : Bool × List Char :=
        match ctail with
        | '^' :: t => (true, t)
        | _ => (false, ctail)
      match rangesLoop (ng.2.length + 1) rs.1 false 0 ng.2 with
      | .error _ => .error ()
      | .ok (m, c2) => matchChunkLoop fuel (failed || (m == ng.1)) c2 rs.2
    else if c = '?' then
      if failed then matchChunkLoop fuel failed ctail s
      else
        match s with
        | [] => matchChunkLoop fuel true ctail []
        | a :: as => matchChunkLoop fuel (a == '/') ctail as
    else if c = '\\' then
      match ctail with
      | [] => .error ()
      | c2 :: ctail2 =>
          if failed then matchChunkLoop fuel failed ctail2 s
          else
            match s with
            | [] => matchChunkLoop fuel true ctail2 []
            | a :: as => matchChunkLoop fuel (c2 != a) ctail2 as
    else
      if failed then matchChunkLoop fuel failed ctail s
      else
        match s with
        | [] => matchChunkLoop fuel true ctail []
        | a :: as => matchChunkLoop fuel (c != a) ctail as

/-- Go `matchChunk`: the chunk loop consumes at least one chunk character per
iteration, so `length + 1` fuel always suffices. -/
def matchChunk (chunk s : List Char) : Except Unit (Option (List Char)) :=
  matchChunkLoop (chunk.length + 1) false chunk s

/-- The `if star { for i ... }` backtracking search of Go `Match`: look for a
chunk match skipping one more leading name character each time (stopping at a
separator). `.ok (some t)` commits (`continue Pattern` with `name = t`),
`.ok none` means the search was exhausted. -/
def starSearch (chunk rest n : List Char) : Except Unit (Option (List Char)) :=
  match n with
  | [] => .ok none
  | c :: ntail =>
      if c = '/' then .ok none
      else
        match matchChunk chunk ntail with
        | .error _ => .error ()
        | .ok (some t) =>
            if rest.isEmpty ∧ ¬ t.isEmpty then starSearch chunk rest ntail
            else .ok (some t)
        | .ok none => starSearch chunk rest ntail

/-- The final loop of Go `Match`: before returning a no-error mismatch, check
the remaining pattern for bad syntax by matching each chunk against the empty
string. -/
def checkRemainder : Nat → List Char → Except Unit Bool
  | 0, _ => .error ()
  | _, [] => .ok false
  | fuel + 1, pattern =>
      let scr := scanChunk pattern
      match matchChunk scr.2.1 [] with
      | .error _ => .error ()
      | .ok _ => checkRemainder fuel scr.2.2

/-- The main loop of Go `filepath.Match` (fuelled: each iteration consumes at
least one pattern character). -/
def matchLoop : Nat → List Char → List Char → Except Unit Bool
  | 0, _, _ => .error ()
  | _, [], name => .ok name.isEmpty
  | fuel + 1, pattern@(_ :: _), name =>
    let scr := scanChunk pattern
    let star := scr.1
    let chunk := scr.2.1
    let rest := scr.2.2
    if star ∧ chunk.isEmpty then
      .ok (! name.contains '/')
    else
      match matchChunk chunk name with
      | .error _ => .error ()
      | .ok (some t) =>
          if t.isEmpty ∨ ¬ rest.isEmpty then matchLoop fuel rest t
          else if star then
            match starSearch chunk rest name with
            | .error _ => .error ()
            | .ok (some t2) => matchLoop fuel rest t2
            | .ok none => checkRemainder (rest.length + 1) rest
          else checkRemainder (rest.length + 1) rest
      | .ok none =>
          if star then
            match starSearch chunk rest name with
            | .error _ => .error ()
            | .ok (some t2) => matchLoop fuel rest t2
            | .ok none => checkRemainder (rest.length + 1) rest
          else checkRemainder (rest.length + 1) rest

/-- Go `filepath.Match(pattern, name)` on the non-Windows build. -/
def filepathMatch (pattern name : String) : Except Unit Bool :=
  matchLoop (pattern.toList.length + 1) pattern.toList name.toList

/-- `true` exactly when `filepath.Match` reported `ErrBadPattern`. -/
def isBadPattern (e : Except Unit Bool) : Bool :=
  match e with
  | .error _ => true
  | .ok _ => false

/-- `matchesAny` (cmd/describe.go:347-363): exact string equality first, then
glob matching; a match error from `filepath.Match` is swallowed (`err == nil &&
matched`), so the function is total and never propagates an error. -/
def matchesAny (str : String) (patterns : List String) : Bool :=
  patterns.any fun pattern =>
    (str == pattern) ||
      (match filepathMatch pattern str with
       | .ok matched => matched
       | .error _ => false)

/-- `filterClusters` (cmd/describe.go:324-345): identity when no filtering is
requested; otherwise keep the clusters that match no exclude pattern and, when
an include list is given, match some include pattern. -/
def filterClusters (clusters : List ClusterInfo) (includePatterns excludePatterns : List String) :
    List ClusterInfo :=
  if includePatterns.isEmpty && excludePatterns.isEmpty then clusters
  else
    clusters.filter fun cluster =>
      ! matchesAny cluster.Name excludePatterns &&
        (includePatterns.isEmpty || matchesAny cluster.Name includePatterns)

/-! ### Discovery: ClusterProfile parsing (pkg/discovery/clusterprofile.go) -/

/-- One element of `status.conditions` that type-asserted to a map
(`cond.(map[string]interface{})`); `condType`/`condStatus` are the `"type"` and
`"status"` entries, `none` when absent (`NestedString` then yields `""`). -/
structure CondEntry where
  condType : Option String
  condStatus : Option String
deriving DecidableEq, Repr

/-- The fields of an unstructured ClusterProfile record that
`parseClusterProfile` reads. `conditions = none` models `NestedSlice` reporting
not-found (or an error); an inner `none` models a condition entry that is not a
map (the type assertion fails and the entry is skipped). -/
structure ClusterProfileObj where
  name : String
  namespaceField : String
  labels : List (String × String)
  displayName : Option String
  statusVersionKubernetes : Option String
  conditions : Option (List (Option CondEntry))
deriving DecidableEq, Repr

/-- `ClusterProfileDiscovery.isClusterHealthy` (pkg/discovery:224-246): `false`
when the conditions list is absent, otherwise scan for a condition whose type
is `"ControlPlaneHealthy"` with status `"True"`. -/
def isClusterHealthy (obj : ClusterProfileObj) : Bool :=
  match obj.conditions with
  | none => false
  | some conds =>
      conds.any fun cond =>
        match cond with
        | none => false
        | some cm =>
            (cm.condType.getD "" == "ControlPlaneHealthy") &&
              (cm.condStatus.getD "" == "True")

/-- `ClusterProfileDiscovery.parseClusterProfile` (pkg/discovery:197-221): the
Go function always returns `(cluster, nil)`; `DisplayName` falls back to the
name, `KubernetesVersion` stays at its zero value `""` when absent. -/
def parseClusterProfile (obj : ClusterProfileObj) : ClusterInfo :=
  { Name := obj.name
    Namespace := obj.namespaceField
    Labels := obj.labels
    DisplayName := obj.displayName.getD obj.name
    KubernetesVersion := obj.statusVersionKubernetes.getD ""
    Healthy := isClusterHealthy obj }

/-! ### Table aggregation (pkg/aggregator/table.go) -/

/-- `aggregator.ItemWithCluster` (pkg/aggregator/table.go:24-27). -/
structure ItemWithCluster where
  Item : UnstructuredObj
  Cluster : String
deriving DecidableEq, Repr

/-- The three-part sort key the `sort.Slice` less-function reads: cluster name,
then `metadata.namespace`, then `metadata.name`, as character lists (Go
compares strings byte-wise; on valid UTF-8 that is Char-lexicographic order). -/
def keyOf (x : ItemWithCluster) : List Char × List Char × List Char :=
  (x.Cluster.toList, (nsOf x.Item).toList, (nameOf x.Item).toList)

/-- The less-function passed to `sort.Slice` in `AggregateGetResults`
(pkg/aggregator/table.go:98-110), expressed on sort keys: clusters differ ⇒
compare clusters; namespaces differ ⇒ compare namespaces; else compare names. -/
def keyLt (x y : List Char × List Char × List Char) : Bool :=
  if x.1 ≠ y.1 then decide (x.1 < y.1)
  else if x.2.1 ≠ y.2.1 then decide (x.2.1 < y.2.1)
  else decide (x.2.2 < y.2.2)

/-- The non-strict order induced by the less-function: `a` may precede `b`
exactly when `b` is not strictly less than `a`. `sort.Slice` guarantees its
output is sorted in this sense (a sorted permutation of the input); the model
realises that contract with an insertion sort. -/
def sortLe (a b : ItemWithCluster) : Prop :=
  keyLt (keyOf b) (keyOf a) = false

instance : DecidableRel sortLe :=
  fun a b => by unfold sortLe; infer_instance

/-- The `sort.Slice(allItems, ...)` call of `AggregateGetResults`: produce a
permutation of the items sorted by the three-part key. -/
def sortItems (items : List ItemWithCluster) : List ItemWithCluster :=
  List.insertionSort sortLe items

/-- The collection loop of `AggregateGetResults` (pkg/aggregator/table.go:80-90):
skip failed clusters, tag each item of a successful cluster with its cluster
name, preserving result order then item order. -/
def collectItems (results : List ClusterResult) : List ItemWithCluster :=
  results.flatMap fun result =>
    if result.Success then
      result.Items.map fun item => { Item := item, Cluster := result.ClusterName }
    else []

/-- The formatter selected by the `switch strings.ToLower(resourceType)`
dispatch of `AggregateGetResults` (pkg/aggregator/table.go:113-122). -/
inductive RenderStyle where
  | pods
  | deployments
  | services
  | generic
deriving DecidableEq, Repr

/-- The `switch strings.ToLower(resourceType)` dispatch. -/
def renderStyleFor (resourceType : String) : RenderStyle :=
  let t := resourceType.toLower
  if t == "pod" || t == "pods" then .pods
  else if t == "deployment" || t == "deployments" then .deployments
  else if t == "service" || t == "services" then .services
  else .generic

/-- The observable outcome of `AggregateGetResults`: either the single
`"No resources found"` notice, or a table whose rows are the sorted items in
order (each of the four formatters prints one row per item, iterating the
sorted slice front to back). -/
inductive GetRender where
  | noResourcesFound
  | table (style : RenderStyle) (rows : List ItemWithCluster)
deriving DecidableEq, Repr

/-- `TableAggregator.AggregateGetResults` (pkg/aggregator/table.go:76-123):
collect successful clusters' items; when none, print the notice and return
`nil`; otherwise sort and render. Every control path returns a `nil` error
(the second component), because all four formatters end with `return nil`. -/
def AggregateGetResults (results : List ClusterResult) (resourceType : String) :
    GetRender × Option String :=
  let allItems := collectItems results
  if allItems.isEmpty then (.noResourcesFound, none)
  else (.table (renderStyleFor resourceType) (sortItems allItems), none)

/-! ### Describe aggregation (pkg/aggregator/describe.go) -/

/-- The non-strict order induced by the `sort.Slice` less-function of
`AggregateDescribeResults` (compare `ClusterName` byte-wise, i.e.
Char-lexicographically on valid UTF-8). -/
def describeSortLe (a b : ClusterResult) : Prop :=
  decide (b.ClusterName.toList < a.ClusterName.toList) = false

instance : DecidableRel describeSortLe :=
  fun a b => by unfold describeSortLe; infer_instance

/-- The observable outcome of `AggregateDescribeResults`: either the single
`"No resources found"` notice, or the printed narrative sections — one
`(ClusterName, Output)` block per rendered cluster, in rendered order (headers
and separators elided). `sections []` is an invocation that printed nothing. -/
inductive DescribeRender where
  | noResourcesFound
  | sections (blocks : List (String × String))
deriving DecidableEq, Repr

/-- `DescribeAggregator.AggregateDescribeResults` (pkg/aggregator/describe.go:26-73):
sort a copy of `Results` by cluster name; print one block per successful result
with non-empty `Output` (`hasOutput` tracks whether any block was printed);
when nothing was printed, return the error
`"failed to describe resource in all N clusters"` if the round had targets and
all of them failed, else print the notice; return `nil` otherwise. The Go
`resourceType` parameter is unused by the body. -/
def AggregateDescribeResults (ar : AggregatedResults) (resourceType : String) :
    DescribeRender × Option String :=
  let sortedResults := List.insertionSort describeSortLe ar.Results
  let blocks := (sortedResults.filter (fun r => r.Success && r.Output != "")).map
    (fun r => (r.ClusterName, r.Output))
  if blocks.isEmpty then
    if ar.Summary.Total > 0 && ar.Summary.Failed == ar.Summary.Total then
      (.sections [], some ("failed to describe resource in all "
        ++ toString ar.Summary.Total ++ " clusters"))
    else (.noResourcesFound, none)
  else (.sections blocks, none)

/-! ### Command-level failure decision (cmd/describe.go)

Both `runGet` (cmd/describe.go:305-318) and `runDescribe`
(cmd/describe.go:136-149) end with the same two steps: run the aggregator,
returning `"failed to aggregate results: <err>"` early when it errors; then,
only if aggregation succeeded, print the per-cluster error enumeration and
return the hard error `"all clusters failed"` iff some cluster failed and none
succeeded. The middle component records whether the per-cluster error
enumeration (the `for cluster, err := range results.Summary.Errors` loop) ran. -/

/-- The tail of `runGet` after `Executor.Get` returns: render, whether the
per-cluster error enumeration ran, and the returned error. -/
def runGetTail (ar : AggregatedResults) (resourceType : String) :
    GetRender × Bool × Option String :=
  let agg := AggregateGetResults ar.Results resourceType
  match agg.2 with
  | some e => (agg.1, false, some ("failed to aggregate results: " ++ e))
  | none =>
      if ar.Summary.Failed > 0 && ar.Summary.Successful == 0 then
        (agg.1, true, some "all clusters failed")
      else (agg.1, false, none)

/-- The tail of `runDescribe` after `Executor.Describe` returns: render,
whether the per-cluster error enumeration ran, and the returned error. The
early return on an aggregation error (cmd/describe.go:138-140) precedes the
enumeration gate (cmd/describe.go:142-149). -/
def runDescribeTail (ar : AggregatedResults) (resourceType : String) :
    DescribeRender × Bool × Option String :=
  let agg := AggregateDescribeResults ar resourceType
  match agg.2 with
  | some e => (agg.1, false, some ("failed to aggregate results: " ++ e))
  | none =>
      if ar.Summary.Failed > 0 && ar.Summary.Successful == 0 then
        (agg.1, true, some "all clusters failed")
      else (agg.1, false, none)

/-! ### Age formatting (pkg/aggregator/table.go:536-569) -/

/-- The `noneValue` placeholder constant (pkg/aggregator/table.go:14-16). -/
def noneValue : String := "<none>"

/-- `formatDuration` (pkg/aggregator/table.go:557-569) over a duration in
nanoseconds (Go `time.Duration`). Go converts through float64 seconds /
minutes / hours and truncates with `int(...)`; for the durations below 2⁵³ ns
handled here that equals truncating integer division (`Int.tdiv`). -/
def formatDuration (d : Int) : String :=
  if d < 60 * 1000000000 then toString (d.tdiv 1000000000) ++ "s"
  else if d < 3600 * 1000000000 then toString (d.tdiv (60 * 1000000000)) ++ "m"
  else if d < 24 * 3600 * 1000000000 then toString (d.tdiv (3600 * 1000000000)) ++ "h"
  else toString (d.tdiv (24 * 3600 * 1000000000)) ++ "d"

/-- `calculateAge` (pkg/aggregator/table.go:537-554). The RFC3339 parser
`time.Parse` is a standard-library collaborator passed in as `parseRFC3339`
(`none` models a parse error); `now` is the current clock in nanoseconds, so
`time.Since t = now - t`. A missing field, an empty string and a parse failure
all render the placeholder. -/
def calculateAge (parseRFC3339 : String → Option Int) (now : Int)
    (creationTime : Option String) : String :=
  match creationTime with
  | none => noneValue
  | some s =>
      if s == "" then noneValue
      else
        match parseRFC3339 s with
        | none => noneValue
        | some t => formatDuration (now - t)

/-- A failed cluster result that carries an error: exactly the results for
which `AddResult` writes an entry into `Summary.Errors`. -/
def failedWithError (r : ClusterResult) : Bool :=
  !r.Success && r.Error.isSome

/-- The non-strict order on sort keys induced by the `sort.Slice`
less-function: `x` may precede `y` exactly when `y` is not strictly below `x`. -/
def keyLe (x y : List Char × List Char × List Char) : Prop :=
  keyLt y x = false

/-! ## Helper lemmas -/

theorem AddResult_Results (ar : AggregatedResults) (r : ClusterResult) :
    (AddResult ar r).Results = ar.Results ++ [r] := rfl

theorem AddResult_Total (ar : AggregatedResults) (r : ClusterResult) :
    (AddResult ar r).Summary.Total = ar.Summary.Total := by
  unfold AddResult
  split <;> rfl

theorem foldl_AddResult_Results (l : List ClusterResult) (ar : AggregatedResults) :
    (l.foldl AddResult ar).Results = ar.Results ++ l := by
  induction l generalizing ar with
  | nil => simp
  | cons r t ih =>
      rw [List.foldl_cons, ih, AddResult_Results, List.append_assoc, List.singleton_append]

theorem foldl_AddResult_Total (l : List ClusterResult) (ar : AggregatedResults) :
    (l.foldl AddResult ar).Summary.Total = ar.Summary.Total := by
  induction l generalizing ar with
  | nil => rfl
  | cons r t ih => rw [List.foldl_cons, ih, AddResult_Total]

theorem foldl_AddResult_Successful (l : List ClusterResult) (ar : AggregatedResults) :
    (l.foldl AddResult ar).Summary.Successful
      = ar.Summary.Successful + l.countP (fun r => r.Success) := by
  induction l generalizing ar with
  | nil => simp
  | cons r t ih =>
      rw [List.foldl_cons, ih, List.countP_cons]
      cases hs : r.Success <;> simp [AddResult, hs] <;> omega

theorem foldl_AddResult_Failed (l : List ClusterResult) (ar : AggregatedResults) :
    (l.foldl AddResult ar).Summary.Failed
      = ar.Summary.Failed + l.countP (fun r => !r.Success) := by
  induction l generalizing ar with
  | nil => simp
  | cons r t ih =>
      rw [List.foldl_cons, ih, List.countP_cons]
      cases hs : r.Success <;> simp [AddResult, hs] <;> omega

theorem mapAssign_of_fresh (m : List (String × String)) (k v : String)
    (h : k ∉ m.map Prod.fst) : mapAssign m k v = m ++ [(k, v)] := by
  unfold mapAssign
  rw [if_neg]
  intro hc
  rw [List.any_eq_true] at hc
  obtain ⟨p, hp, hpk⟩ := hc
  rw [beq_iff_eq] at hpk
  exact h (List.mem_map.mpr ⟨p, hp, hpk⟩)

theorem foldl_AddResult_Errors (l : List ClusterResult) (ar : AggregatedResults)
    (h : (ar.Summary.Errors.map Prod.fst
            ++ (l.filter failedWithError).map (fun r => r.ClusterName)).Nodup) :
    (l.foldl AddResult ar).Summary.Errors
      = ar.Summary.Errors
          ++ (l.filter failedWithError).map (fun r => (r.ClusterName, r.Error.getD "")) := by
  induction l generalizing ar with
  | nil => simp
  | cons r t ih =>
      rw [List.foldl_cons]
      by_cases hf : failedWithError r = true
      · obtain ⟨hs, he⟩ := Bool.and_eq_true_iff.mp hf
        obtain ⟨e, herr⟩ := Option.isSome_iff_exists.mp he
        rw [List.filter_cons_of_pos hf] at h ⊢
        have hfresh : r.ClusterName ∉ ar.Summary.Errors.map Prod.fst := by
          rw [List.map_cons] at h
          rw [List.nodup_append] at h
          intro hmem
          exact h.2.2 hmem (List.mem_cons_self _ _)
        have hsf : r.Success = false := by revert hs; cases r.Success <;> simp
        have herrs : (AddResult ar r).Summary.Errors
            = ar.Summary.Errors ++ [(r.ClusterName, e)] := by
          unfold AddResult
          rw [if_neg (by simp [hsf])]
          simp only [herr]
          exact mapAssign_of_fresh _ _ _ hfresh
        rw [ih (AddResult ar r) (by
          rw [herrs, List.map_append, List.map_cons] at *
          simpa [List.append_assoc] using h)]
        rw [herrs, List.map_cons, herr]
        simp [List.append_assoc]
      · rw [List.filter_cons_of_neg hf] at h ⊢
        have herrs : (AddResult ar r).Summary.Errors = ar.Summary.Errors := by
          unfold AddResult
          unfold failedWithError at hf
          cases hs : r.Success
          · cases herr : r.Error
            · simp [hs, herr]
            · rw [hs, herr] at hf
              simp at hf
          · simp [hs]
        rw [ih (AddResult ar r) (by rw [herrs]; exact h), herrs]

theorem countP_failed_split (l : List ClusterResult) :
    l.countP (fun r => !r.Success)
      = l.countP failedWithError + l.countP (fun r => !r.Success && r.Error.isNone) := by
  induction l with
  | nil => rfl
  | cons r t ih =>
      obtain ⟨cn, sc, its, out, er⟩ := r
      simp only [List.countP_cons, ih, failedWithError]
      cases sc <;> cases er <;> simp <;> omega

theorem matchesAny_nil (n : String) : matchesAny n [] = false := rfl

theorem filterClusters_eq_filter (clusters : List ClusterInfo)
    (inc exc : List String) :
    filterClusters clusters inc exc
      = clusters.filter
          (fun c => ! matchesAny c.Name exc && (inc.isEmpty || matchesAny c.Name inc)) := by
  unfold filterClusters
  split
  · next h =>
      rw [Bool.and_eq_true, List.isEmpty_iff, List.isEmpty_iff] at h
      obtain ⟨h1, h2⟩ := h
      subst h1
      subst h2
      simp [matchesAny_nil]
  · rfl

theorem perm_flatMap {α β : Type _} (f : α → List β) {l1 l2 : List α}
    (h : l1.Perm l2) : (l1.flatMap f).Perm (l2.flatMap f) := by
  induction h with
  | nil => rfl
  | cons x _ ih =>
      rw [List.flatMap_cons, List.flatMap_cons]
      exact ih.append_left (f x)
  | swap x y l =>
      rw [List.flatMap_cons, List.flatMap_cons, List.flatMap_cons, List.flatMap_cons]
      rw [← List.append_assoc, ← List.append_assoc]
      exact List.perm_append_comm.append_right _
  | trans _ _ ih1 ih2 => exact ih1.trans ih2

theorem keyLt_asymm (x y : List Char × List Char × List Char)
    (h : keyLt x y = true) : keyLt y x = false := by
  obtain ⟨a1, a2, a3⟩ := x
  obtain ⟨b1, b2, b3⟩ := y
  unfold keyLt at h ⊢
  dsimp only at h ⊢
  by_cases h1 : a1 = b1
  · subst h1
    rw [if_neg (fun hc => hc rfl)] at h ⊢
    by_cases h2 : a2 = b2
    · subst h2
      rw [if_neg (fun hc => hc rfl)] at h ⊢
      rw [decide_eq_true_eq] at h
      rw [decide_eq_false_iff_not]
      exact lt_asymm h
    · rw [if_pos h2] at h
      rw [if_pos (Ne.symm h2)]
      rw [decide_eq_true_eq] at h
      rw [decide_eq_false_iff_not]
      exact lt_asymm h
  · rw [if_pos h1] at h
    rw [if_pos (Ne.symm h1)]
    rw [decide_eq_true_eq] at h
    rw [decide_eq_false_iff_not]
    exact lt_asymm h

theorem keyLt_connex (x y : List Char × List Char × List Char)
    (hxy : keyLt x y = false) (hyx : keyLt y x = false) : x = y := by
  obtain ⟨a1, a2, a3⟩ := x
  obtain ⟨b1, b2, b3⟩ := y
  unfold keyLt at hxy hyx
  dsimp only at hxy hyx
  by_cases h1 : a1 = b1
  · subst h1
    rw [if_neg (fun hc => hc rfl)] at hxy hyx
    by_cases h2 : a2 = b2
    · subst h2
      rw [if_neg (fun hc => hc rfl)] at hxy hyx
      rw [decide_eq_false_iff_not] at hxy hyx
      have h3 : a3 = b3 := le_antisymm (le_of_not_lt hyx) (le_of_not_lt hxy)
      rw [h3]
    · rw [if_pos h2] at hxy
      rw [if_pos (Ne.symm h2)] at hyx
      rw [decide_eq_false_iff_not] at hxy hyx
      exact ((lt_or_gt_of_ne h2).elim (fun hl => absurd hl hxy) (fun hl => absurd hl hyx))
  · rw [if_pos h1] at hxy
    rw [if_pos (Ne.symm h1)] at hyx
    rw [decide_eq_false_iff_not] at hxy hyx
    exact ((lt_or_gt_of_ne h1).elim (fun hl => absurd hl hxy) (fun hl => absurd hl hyx))

theorem keyLt_trans (x y z : List Char × List Char × List Char)
    (hxy : keyLt x y = true) (hyz : keyLt y z = true) : keyLt x z = true := by
  obtain ⟨a1, a2, a3⟩ := x
  obtain ⟨b1, b2, b3⟩ := y
  obtain ⟨c1, c2, c3⟩ := z
  unfold keyLt at hxy hyz ⊢
  dsimp only at hxy hyz ⊢
  by_cases h1 : a1 = b1
  · subst h1
    rw [if_neg (fun hc => hc rfl)] at hxy
    by_cases h1c : a1 = c1
    · subst h1c
      rw [if_neg (fun hc => hc rfl)] at hyz ⊢
      by_cases h2 : a2 = b2
      · subst h2
        rw [if_neg (fun hc => hc rfl)] at hxy
        by_cases h2c : a2 = c2
        · subst h2c
          rw [if_neg (fun hc => hc rfl)] at hyz ⊢
          rw [decide_eq_true_eq] at hxy hyz
          rw [decide_eq_true_eq]
          exact lt_trans hxy hyz
        · rw [if_pos h2c] at hyz ⊢
          exact hyz
      · rw [if_pos h2] at hxy
        rw [decide_eq_true_eq] at hxy
        by_cases h2c : b2 = c2
        · subst h2c
          rw [if_pos h2]
          rw [decide_eq_true_eq]
          exact hxy
        · rw [if_pos h2c] at hyz
          rw [decide_eq_true_eq] at hyz
          rw [if_pos (ne_of_lt (lt_trans hxy hyz))]
          rw [decide_eq_true_eq]
          exact lt_trans hxy hyz
    · rw [if_pos h1c] at hyz ⊢
      exact hyz
  · rw [if_pos h1] at hxy
    rw [decide_eq_true_eq] at hxy
    by_cases h1c : b1 = c1
    · subst h1c
      rw [if_pos h1]
      rw [decide_eq_true_eq]
      exact hxy
    · rw [if_pos h1c] at hyz
      rw [decide_eq_true_eq] at hyz
      rw [if_pos (ne_of_lt (lt_trans hxy hyz))]
      rw [decide_eq_true_eq]
      exact lt_trans hxy hyz

instance : IsTotal ItemWithCluster sortLe :=
  ⟨fun a b => by
    unfold sortLe
    cases hb : keyLt (keyOf b) (keyOf a) with
    | false => exact Or.inl rfl
    | true => exact Or.inr (keyLt_asymm _ _ hb)⟩

instance : IsTrans ItemWithCluster sortLe :=
  ⟨fun a b c hab hbc => by
    unfold sortLe at hab hbc ⊢
    cases hca : keyLt (keyOf c) (keyOf a) with
    | false => rfl
    | true =>
        exfalso
        cases hba : keyLt (keyOf a) (keyOf b) with
        | true =>
            have hcb := keyLt_trans _ _ _ hca hba
            rw [hbc] at hcb
            exact Bool.false_ne_true hcb
        | false =>
            have heq : keyOf a = keyOf b := keyLt_connex _ _ hba hab
            rw [heq] at hca
            rw [hbc] at hca
            exact Bool.false_ne_true hca⟩

instance : IsAntisymm (List Char × List Char × List Char) keyLe :=
  ⟨fun x y hxy hyx => keyLt_connex x y hyx hxy⟩

theorem collectItems_eq_nil_iff (results : List ClusterResult) :
    collectItems results = [] ↔ ∀ r ∈ results, r.Success = true → r.Items = [] := by
  unfold collectItems
  rw [List.flatMap_eq_nil_iff]
  constructor
  · intro h r hr hs
    have hh := h r hr
    rw [hs] at hh
    simpa using hh
  · intro h r hr
    cases hs : r.Success with
    | false => simp [hs]
    | true => simp [hs, h r hr hs]

/-! ## Claim theorems -/

/-- C1: every fan-out round returns exactly one `ClusterResult` per submitted
cluster — `len(Results) = Summary.Total = number of clusters submitted` — for
every delivery order (`delivered` ranges over all permutations of the
per-cluster outcomes, covering the empty round, a cancelled context and
all-failing clusters, which only change what `getFrom` returns, never how many
results arrive), and per cluster name the round holds exactly as many results
as clusters of that name were submitted. -/
theorem claim_C1_round_completeness :
    ∀ (clusters : List ClusterInfo) (getFrom : ClusterInfo → ClusterResult)
      (delivered : List ClusterResult),
      delivered.Perm (clusters.map getFrom) →
      (∀ c, (getFrom c).ClusterName = c.Name) →
      (executorGetRound clusters delivered).Results.length = clusters.length
      ∧ (executorGetRound clusters delivered).Summary.Total = clusters.length
      ∧ ∀ n : String,
          (executorGetRound clusters delivered).Results.countP (fun r => r.ClusterName == n)
            = clusters.countP (fun c => c.Name == n) := by
  intro clusters getFrom delivered hperm hname
  have hres : (executorGetRound clusters delivered).Results = delivered := by
    unfold executorGetRound
    rw [foldl_AddResult_Results]
    simp [NewAggregatedResults]
  refine ⟨?_, ?_, ?_⟩
  · rw [hres, hperm.length_eq, List.length_map]
  · unfold executorGetRound
    rw [foldl_AddResult_Total]
    rfl
  · intro n
    rw [hres, List.Perm.countP_eq _ hperm, List.countP_map]
    have hfun : ((fun r : ClusterResult => r.ClusterName == n) ∘ getFrom)
        = (fun c : ClusterInfo => c.Name == n) := by
      funext c
      simp [Function.comp, hname c]
    rw [hfun]

/-- Witness for C1: a two-cluster round whose results arrive in reverse order
(both clusters fail with the no-mapping error `getFromCluster` synthesizes). -/
theorem claim_C1_witness :
    (executorGetRound
        [⟨"alpha", "alpha", "ns", "", true, []⟩, ⟨"beta", "beta", "ns", "", true, []⟩]
        [⟨"beta", false, [], "", some "no kubeconfig context mapped for cluster beta"⟩,
         ⟨"alpha", false, [], "", some "no kubeconfig context mapped for cluster alpha"⟩]).Results.length
      = 2
    ∧ (executorGetRound
        [⟨"alpha", "alpha", "ns", "", true, []⟩, ⟨"beta", "beta", "ns", "", true, []⟩]
        [⟨"beta", false, [], "", some "no kubeconfig context mapped for cluster beta"⟩,
         ⟨"alpha", false, [], "", some "no kubeconfig context mapped for cluster alpha"⟩]).Summary.Total
      = 2
    ∧ (executorGetRound
        [⟨"alpha", "alpha", "ns", "", true, []⟩, ⟨"beta", "beta", "ns", "", true, []⟩]
        [⟨"beta", false, [], "", some "no kubeconfig context mapped for cluster beta"⟩,
         ⟨"alpha", false, [], "", some "no kubeconfig context mapped for cluster alpha"⟩]).Results.countP
          (fun r => r.ClusterName == "alpha")
      = ([⟨"alpha", "alpha", "ns", "", true, []⟩, ⟨"beta", "beta", "ns", "", true, []⟩]
          : List ClusterInfo).countP (fun c => c.Name == "alpha") := by
  have h := claim_C1_round_completeness
    [⟨"alpha", "alpha", "ns", "", true, []⟩, ⟨"beta", "beta", "ns", "", true, []⟩]
    (fun c => ⟨c.Name, false, [], "", some ("no kubeconfig context mapped for cluster " ++ c.Name)⟩)
    [⟨"beta", false, [], "", some "no kubeconfig context mapped for cluster beta"⟩,
     ⟨"alpha", false, [], "", some "no kubeconfig context mapped for cluster alpha"⟩]
    (by decide) (fun c => rfl)
  exact ⟨h.1, h.2.1, h.2.2 "alpha"⟩

/-- C2: for a completed round over clusters with pairwise-distinct names,
`Summary.Successful + Summary.Failed = Summary.Total`, the error map holds
exactly one entry per failed result with a non-nil error (successful results
contribute none), and therefore `len(Errors) = Failed` minus the number of
failed results whose error is nil. -/
theorem claim_C2_summary_accounting :
    ∀ (clusters : List ClusterInfo) (getFrom : ClusterInfo → ClusterResult)
      (delivered : List ClusterResult),
      delivered.Perm (clusters.map getFrom) →
      (∀ c, (getFrom c).ClusterName = c.Name) →
      (clusters.map (fun c => c.Name)).Nodup →
      (executorGetRound clusters delivered).Summary.Successful
          + (executorGetRound clusters delivered).Summary.Failed
        = (executorGetRound clusters delivered).Summary.Total
      ∧ (executorGetRound clusters delivered).Summary.Errors.length
          = delivered.countP failedWithError
      ∧ (executorGetRound clusters delivered).Summary.Errors.length
          = (executorGetRound clusters delivered).Summary.Failed
              - delivered.countP (fun r => !r.Success && r.Error.isNone) := by
  intro clusters getFrom delivered hperm hname hnodup
  have hS : (executorGetRound clusters delivered).Summary.Successful
      = delivered.countP (fun r => r.Success) := by
    unfold executorGetRound
    rw [foldl_AddResult_Successful]
    simp [NewAggregatedResults]
  have hF : (executorGetRound clusters delivered).Summary.Failed
      = delivered.countP (fun r => !r.Success) := by
    unfold executorGetRound
    rw [foldl_AddResult_Failed]
    simp [NewAggregatedResults]
  have hT : (executorGetRound clusters delivered).Summary.Total = clusters.length := by
    unfold executorGetRound
    rw [foldl_AddResult_Total]
    rfl
  have hnames : (delivered.map (fun r => r.ClusterName)).Nodup := by
    have h1 := hperm.map (fun r : ClusterResult => r.ClusterName)
    rw [List.map_map] at h1
    have h2 : (clusters.map ((fun r : ClusterResult => r.ClusterName) ∘ getFrom))
        = clusters.map (fun c => c.Name) := by
      have hfun : ((fun r : ClusterResult => r.ClusterName) ∘ getFrom)
          = (fun c : ClusterInfo => c.Name) := funext fun c => by simp [Function.comp, hname c]
      rw [hfun]
    rw [h2] at h1
    exact (h1.nodup_iff).mpr hnodup
  have hE : (executorGetRound clusters delivered).Summary.Errors
      = (delivered.filter failedWithError).map (fun r => (r.ClusterName, r.Error.getD "")) := by
    unfold executorGetRound
    rw [foldl_AddResult_Errors _ _ (by
      simp only [NewAggregatedResults, List.map_nil, List.nil_append]
      exact List.Nodup.sublist (List.Sublist.map _ (List.filter_sublist _)) hnames)]
    simp [NewAggregatedResults]
  refine ⟨?_, ?_, ?_⟩
  · rw [hS, hF, hT]
    have hlen : delivered.length = clusters.length := by
      rw [hperm.length_eq, List.length_map]
    have hcount := List.length_eq_countP_add_countP (fun r : ClusterResult => r.Success) delivered
    have hfun : (fun a : ClusterResult => decide ¬a.Success = true)
        = (fun r : ClusterResult => !r.Success) := funext fun a => by cases a.Success <;> simp
    rw [hfun] at hcount
    omega
  · rw [hE, List.length_map, List.countP_eq_length_filter]
  · rw [hE, hF, List.length_map]
    have hsplit := countP_failed_split delivered
    rw [← List.countP_eq_length_filter]
    omega

/-- C3: the selector keeps a cluster iff its `Name` matches no exclude pattern
and (the include list is empty or its `Name` matches some include pattern);
with both lists empty the input is returned unchanged; and the decision reads
only `Name` — rewriting every `DisplayName` commutes with the filter. -/
theorem claim_C3_selector_semantics :
    ∀ (clusters : List ClusterInfo) (inc exc : List String),
      (∀ c : ClusterInfo,
        c ∈ filterClusters clusters inc exc ↔
          c ∈ clusters ∧ matchesAny c.Name exc = false
            ∧ (inc = [] ∨ matchesAny c.Name inc = true))
      ∧ filterClusters clusters [] [] = clusters
      ∧ ∀ f : ClusterInfo → String,
          filterClusters (clusters.map (fun c => { c with DisplayName := f c })) inc exc
            = (filterClusters clusters inc exc).map (fun c => { c with DisplayName := f c }) := by
  intro clusters inc exc
  refine ⟨?_, rfl, ?_⟩
  · intro c
    rw [filterClusters_eq_filter, List.mem_filter]
    constructor
    · rintro ⟨hm, hp⟩
      rw [Bool.and_eq_true] at hp
      obtain ⟨hex, hin⟩ := hp
      refine ⟨hm, ?_, ?_⟩
      · revert hex
        cases matchesAny c.Name exc <;> simp
      · rw [Bool.or_eq_true] at hin
        rcases hin with h | h
        · exact Or.inl (List.isEmpty_iff.mp h)
        · exact Or.inr h
    · rintro ⟨hm, hex, hin⟩
      refine ⟨hm, ?_⟩
      rw [Bool.and_eq_true]
      refine ⟨by rw [hex]; rfl, ?_⟩
      rw [Bool.or_eq_true]
      rcases hin with h | h
      · exact Or.inl (by rw [h]; rfl)
      · exact Or.inr h
  · intro f
    rw [filterClusters_eq_filter, filterClusters_eq_filter, List.filter_map]
    congr 1

/-- C10: the selector's output is an order-preserving subsequence of its input
(a `Sublist`, so no reordering, no duplication, no invented clusters), and each
cluster value occurs exactly as often as its input occurrences that pass the
predicate (zero times when it fails the predicate). -/
theorem claim_C10_selector_subsequence :
    ∀ (clusters : List ClusterInfo) (inc exc : List String),
      (filterClusters clusters inc exc).Sublist clusters
      ∧ ∀ c : ClusterInfo,
          (filterClusters clusters inc exc).count c
            = if (! matchesAny c.Name exc && (inc.isEmpty || matchesAny c.Name inc)) = true
              then clusters.count c else 0 := by
  intro clusters inc exc
  rw [filterClusters_eq_filter]
  refine ⟨List.filter_sublist _, ?_⟩
  intro c
  split
  · next h => exact List.count_filter h
  · next h =>
      rw [List.count_eq_zero]
      intro hm
      rw [List.mem_filter] at hm
      exact h hm.2

/-- C4 counterexample: the pattern `"ab["` is rejected by the glob matcher
(`filepath.Match` returns `ErrBadPattern`), yet it DOES cause selection and
exclusion: `matchesAny` checks exact string equality before glob matching, so
a cluster literally named `"ab["` matches the malformed pattern and is
excluded by `--exclude=ab[`. This falsifies "the malformed pattern never
causes a cluster to be selected or excluded". -/
theorem claim_C4_counterexample :
    isBadPattern (filepathMatch "ab[" "ab[") = true
    ∧ matchesAny "ab[" ["ab["] = true
    ∧ filterClusters [⟨"ab[", "ab[", "ns", "", true, []⟩] [] ["ab["] = [] := by
  refine ⟨by decide, by decide, by decide⟩

/-- C4 (amended): the selector never raises an error, and a syntactically
malformed glob pattern contributes a match only through the exact
string-equality short circuit: against any other cluster name it is a
non-match. (As the counterexample shows, when the cluster name equals the
malformed pattern string the pattern does select/exclude that cluster.) -/
theorem claim_C4_malformed_pattern :
    ∀ (str pattern : String) (ps : List String),
      isBadPattern (filepathMatch pattern str) = true →
      matchesAny str (pattern :: ps) = ((str == pattern) || matchesAny str ps)
      ∧ matchesAny str [pattern] = (str == pattern) := by
  intro str pattern ps h
  have hm : (match filepathMatch pattern str with
             | .ok matched => matched
             | .error _ => false) = false := by
    revert h
    unfold isBadPattern
    cases filepathMatch pattern str <;> simp
  constructor
  · simp [matchesAny, List.any_cons, hm]
  · simp [matchesAny, hm]

/-- Witness for C4: applying the amended theorem at the malformed pattern
`"ab["` and the unrelated name `"prod-1"`. -/
theorem claim_C4_witness :
    matchesAny "prod-1" ["ab[", "prod-*"]
        = (("prod-1" == "ab[") || matchesAny "prod-1" ["prod-*"])
    ∧ matchesAny "prod-1" ["ab["] = ("prod-1" == "ab[") :=
  claim_C4_malformed_pattern "prod-1" "ab[" ["prod-*"] (by decide)

/-- C5: the parsed `ClusterInfo.Healthy` is `true` iff the record's
`status.conditions` contains a map entry whose type is `"ControlPlaneHealthy"`
with status `"True"`; an absent or empty conditions list yields `false`, and
the field is a `Bool` — there is no third state. -/
theorem claim_C5_healthy_iff :
    ∀ obj : ClusterProfileObj,
      ((parseClusterProfile obj).Healthy = true ↔
        ∃ conds, obj.conditions = some conds ∧
          ∃ cm : CondEntry, some cm ∈ conds ∧
            cm.condType.getD "" = "ControlPlaneHealthy" ∧ cm.condStatus.getD "" = "True")
      ∧ (obj.conditions = none → (parseClusterProfile obj).Healthy = false)
      ∧ (obj.conditions = some [] → (parseClusterProfile obj).Healthy = false) := by
  intro obj
  have hH : (parseClusterProfile obj).Healthy = isClusterHealthy obj := rfl
  refine ⟨?_, ?_, ?_⟩
  · rw [hH]
    unfold isClusterHealthy
    cases hc : obj.conditions with
    | none => simp
    | some conds =>
        simp only [List.any_eq_true, Option.some.injEq]
        constructor
        · rintro ⟨cond, hmem, hp⟩
          cases cond with
          | none => simp at hp
          | some cm =>
              rw [Bool.and_eq_true, beq_iff_eq, beq_iff_eq] at hp
              exact ⟨conds, rfl, cm, hmem, hp.1, hp.2⟩
        · rintro ⟨conds2, rfl, cm, hmem, ht, hs⟩
          exact ⟨some cm, hmem, by simp [ht, hs]⟩
  · intro h
    rw [hH]
    unfold isClusterHealthy
    rw [h]
  · intro h
    rw [hH]
    unfold isClusterHealthy
    rw [h]
    rfl

/-- C8 counterexample: a completed two-cluster round in which every cluster
failed. The describe command does report failure (non-zero exit), but NOT by
enumerating every cluster's error: `AggregateDescribeResults` returns the
early error `"failed to describe resource in all 2 clusters"` and
`runDescribe` returns it wrapped, before the per-cluster enumeration loop at
cmd/describe.go:145-147 can run (middle component `false`). This falsifies the
claim's "non-zero exit, enumerating every cluster's error" for describe. -/
theorem claim_C8_counterexample :
    (runDescribeTail
        (executorGetRound
          [⟨"alpha", "alpha", "ns", "", true, []⟩, ⟨"beta", "beta", "ns", "", true, []⟩]
          [⟨"alpha", false, [], "", some "no kubeconfig context mapped for cluster alpha"⟩,
           ⟨"beta", false, [], "", some "no kubeconfig context mapped for cluster beta"⟩])
        "pods").2.2
      = some "failed to aggregate results: failed to describe resource in all 2 clusters"
    ∧ (runDescribeTail
        (executorGetRound
          [⟨"alpha", "alpha", "ns", "", true, []⟩, ⟨"beta", "beta", "ns", "", true, []⟩]
          [⟨"alpha", false, [], "", some "no kubeconfig context mapped for cluster alpha"⟩,
           ⟨"beta", false, [], "", some "no kubeconfig context mapped for cluster beta"⟩])
        "pods").2.1 = false
    ∧ (executorGetRound
          [⟨"alpha", "alpha", "ns", "", true, []⟩, ⟨"beta", "beta", "ns", "", true, []⟩]
          [⟨"alpha", false, [], "", some "no kubeconfig context mapped for cluster alpha"⟩,
           ⟨"beta", false, [], "", some "no kubeconfig context mapped for cluster beta"⟩]).Summary.Failed
        = (executorGetRound
            [⟨"alpha", "alpha", "ns", "", true, []⟩, ⟨"beta", "beta", "ns", "", true, []⟩]
            [⟨"alpha", false, [], "", some "no kubeconfig context mapped for cluster alpha"⟩,
             ⟨"beta", false, [], "", some "no kubeconfig context mapped for cluster beta"⟩]).Summary.Total
    ∧ (executorGetRound
          [⟨"alpha", "alpha", "ns", "", true, []⟩, ⟨"beta", "beta", "ns", "", true, []⟩]
          [⟨"alpha", false, [], "", some "no kubeconfig context mapped for cluster alpha"⟩,
           ⟨"beta", false, [], "", some "no kubeconfig context mapped for cluster beta"⟩]).Summary.Successful
        = 0 := by
  refine ⟨by decide, by decide, by decide, by decide⟩

/-- C8 (amended): on every completed round with at least one targeted cluster
(the round is the `AddResult` fold over an arbitrary delivery permutation, as
in C1; `Executor.Describe` is not among the provided sources and per the spec
completes a round exactly like `Executor.Get`), both `get` and `describe` exit
non-zero iff every targeted cluster failed, and any single success suppresses
failure (exit 0). But only `get` enumerates the per-cluster errors in the
failing case: for `describe` the all-failed failure is the aggregator's early
`"failed to describe resource in all N clusters"` error, returned before the
enumeration gate at cmd/describe.go:142-149, which is unreachable on completed
rounds — describe never runs its enumeration loop. -/
theorem claim_C8_failure_semantics :
    ∀ (clusters : List ClusterInfo) (getFrom : ClusterInfo → ClusterResult)
      (delivered : List ClusterResult) (resourceType : String),
      delivered.Perm (clusters.map getFrom) →
      1 ≤ clusters.length →
      ((runGetTail (executorGetRound clusters delivered) resourceType).2.2 ≠ none
        ↔ (executorGetRound clusters delivered).Summary.Successful = 0)
      ∧ ((runDescribeTail (executorGetRound clusters delivered) resourceType).2.2 ≠ none
        ↔ (executorGetRound clusters delivered).Summary.Successful = 0)
      ∧ ((executorGetRound clusters delivered).Summary.Successful = 0
        ↔ (executorGetRound clusters delivered).Summary.Failed
            = (executorGetRound clusters delivered).Summary.Total)
      ∧ ((runGetTail (executorGetRound clusters delivered) resourceType).2.1 = true
        ↔ (runGetTail (executorGetRound clusters delivered) resourceType).2.2 ≠ none)
      ∧ (runDescribeTail (executorGetRound clusters delivered) resourceType).2.1 = false
      ∧ (1 ≤ (executorGetRound clusters delivered).Summary.Successful →
          (runGetTail (executorGetRound clusters delivered) resourceType).2.2 = none
          ∧ (runDescribeTail (executorGetRound clusters delivered) resourceType).2.2 = none) := by
  intro clusters getFrom delivered rt hperm htot
  have hres : (executorGetRound clusters delivered).Results = delivered := by
    unfold executorGetRound
    rw [foldl_AddResult_Results]
    simp [NewAggregatedResults]
  have hS : (executorGetRound clusters delivered).Summary.Successful
      = delivered.countP (fun r => r.Success) := by
    unfold executorGetRound
    rw [foldl_AddResult_Successful]
    simp [NewAggregatedResults]
  have hF : (executorGetRound clusters delivered).Summary.Failed
      = delivered.countP (fun r => !r.Success) := by
    unfold executorGetRound
    rw [foldl_AddResult_Failed]
    simp [NewAggregatedResults]
  have hT : (executorGetRound clusters delivered).Summary.Total = clusters.length := by
    unfold executorGetRound
    rw [foldl_AddResult_Total]
    rfl
  have hlen : delivered.length = clusters.length := by
    rw [hperm.length_eq, List.length_map]
  have hcount := List.length_eq_countP_add_countP (fun r : ClusterResult => r.Success) delivered
  have hnotfun : (fun a : ClusterResult => decide ¬a.Success = true)
      = (fun r : ClusterResult => !r.Success) := funext fun a => by cases a.Success <;> simp
  rw [hnotfun] at hcount
  have hsum : (executorGetRound clusters delivered).Summary.Successful
      + (executorGetRound clusters delivered).Summary.Failed
      = (executorGetRound clusters delivered).Summary.Total := by
    rw [hS, hF, hT]
    omega
  have hgagg : (AggregateGetResults (executorGetRound clusters delivered).Results rt).2 = none := by
    dsimp only [AggregateGetResults]
    split
    · rfl
    · rfl
  have hdagg_fail : (executorGetRound clusters delivered).Summary.Successful = 0 →
      (AggregateDescribeResults (executorGetRound clusters delivered) rt).2
        = some ("failed to describe resource in all "
            ++ toString (executorGetRound clusters delivered).Summary.Total ++ " clusters") := by
    intro h0
    have hfe : (List.insertionSort describeSortLe
          (executorGetRound clusters delivered).Results).filter
            (fun r => r.Success && r.Output != "") = [] := by
      rw [List.filter_eq_nil_iff]
      intro r hr
      have hc0 : (List.insertionSort describeSortLe
          (executorGetRound clusters delivered).Results).countP (fun r => r.Success) = 0 := by
        rw [List.Perm.countP_eq _ (List.perm_insertionSort describeSortLe _), hres, ← hS, h0]
      have hns := List.countP_eq_zero.mp hc0 r hr
      simp only [Bool.and_eq_true, not_and]
      intro h1 _
      exact hns h1
    have hFT : (executorGetRound clusters delivered).Summary.Failed
        = (executorGetRound clusters delivered).Summary.Total := by omega
    have hTpos : 0 < (executorGetRound clusters delivered).Summary.Total := by
      rw [hT]
      omega
    have hcond : ((executorGetRound clusters delivered).Summary.Total > 0
        && ((executorGetRound clusters delivered).Summary.Failed
            == (executorGetRound clusters delivered).Summary.Total)) = true := by
      rw [Bool.and_eq_true]
      exact ⟨decide_eq_true hTpos, by rw [hFT]; exact beq_self_eq_true _⟩
    simp [AggregateDescribeResults, hfe, hcond]
  have hdagg_succ : 1 ≤ (executorGetRound clusters delivered).Summary.Successful →
      (AggregateDescribeResults (executorGetRound clusters delivered) rt).2 = none := by
    intro h1
    have hFT : ((executorGetRound clusters delivered).Summary.Failed
        == (executorGetRound clusters delivered).Summary.Total) = false := by
      rw [beq_eq_false_iff_ne]
      omega
    dsimp only [AggregateDescribeResults]
    split
    · simp [hFT]
    · rfl
  by_cases hgate : ((executorGetRound clusters delivered).Summary.Failed > 0
      && (executorGetRound clusters delivered).Summary.Successful == 0) = true
  · have hS0 : (executorGetRound clusters delivered).Summary.Successful = 0 := by
      rw [Bool.and_eq_true, beq_iff_eq] at hgate
      exact hgate.2
    have hget2 : (runGetTail (executorGetRound clusters delivered) rt).2
        = (true, some "all clusters failed") := by
      simp [runGetTail, hgagg, hgate]
    have hdesc2 : (runDescribeTail (executorGetRound clusters delivered) rt).2
        = (false, some ("failed to aggregate results: "
            ++ ("failed to describe resource in all "
                ++ toString (executorGetRound clusters delivered).Summary.Total
                ++ " clusters"))) := by
      simp [runDescribeTail, hdagg_fail hS0]
    have hget22 : (runGetTail (executorGetRound clusters delivered) rt).2.2
        = some "all clusters failed" := by rw [hget2]
    have hget21 : (runGetTail (executorGetRound clusters delivered) rt).2.1 = true := by
      rw [hget2]
    have hdesc22 : (runDescribeTail (executorGetRound clusters delivered) rt).2.2
        = some ("failed to aggregate results: "
            ++ ("failed to describe resource in all "
                ++ toString (executorGetRound clusters delivered).Summary.Total
                ++ " clusters")) := by rw [hdesc2]
    have hdesc21 : (runDescribeTail (executorGetRound clusters delivered) rt).2.1 = false := by
      rw [hdesc2]
    refine ⟨⟨fun _ => hS0, fun _ => by rw [hget22]; simp⟩,
            ⟨fun _ => hS0, fun _ => by rw [hdesc22]; simp⟩,
            ⟨fun _ => by omega, fun _ => hS0⟩,
            ⟨fun _ => by rw [hget22]; simp, fun _ => hget21⟩,
            hdesc21, ?_⟩
    intro hsucc
    exact absurd hsucc (by omega)
  · have hS1 : 1 ≤ (executorGetRound clusters delivered).Summary.Successful := by
      rcases Nat.eq_zero_or_pos (executorGetRound clusters delivered).Summary.Successful with h0 | h1
      · exfalso
        apply hgate
        rw [Bool.and_eq_true, beq_iff_eq]
        exact ⟨decide_eq_true (by omega), h0⟩
      · exact h1
    have hget2 : (runGetTail (executorGetRound clusters delivered) rt).2 = (false, none) := by
      simp [runGetTail, hgagg, hgate]
    have hdesc2 : (runDescribeTail (executorGetRound clusters delivered) rt).2
        = (false, none) := by
      simp [runDescribeTail, hdagg_succ hS1, hgate]
    have hget22 : (runGetTail (executorGetRound clusters delivered) rt).2.2 = none := by
      rw [hget2]
    have hget21 : (runGetTail (executorGetRound clusters delivered) rt).2.1 = false := by
      rw [hget2]
    have hdesc22 : (runDescribeTail (executorGetRound clusters delivered) rt).2.2 = none := by
      rw [hdesc2]
    have hdesc21 : (runDescribeTail (executorGetRound clusters delivered) rt).2.1 = false := by
      rw [hdesc2]
    refine ⟨⟨fun hne => absurd hget22 hne, fun h0 => absurd h0 (by omega)⟩,
            ⟨fun hne => absurd hdesc22 hne, fun h0 => absurd h0 (by omega)⟩,
            ⟨fun h0 => absurd h0 (by omega), fun hft => by omega⟩,
            ⟨fun ht => absurd ht (by rw [hget21]; simp), fun hne => absurd hget22 hne⟩,
            hdesc21, fun _ => ⟨hget22, hdesc22⟩⟩

/-- Witness for C8: a completed single-cluster round that failed — describe
reports failure (through the aggregator's early error, never the enumeration
loop). -/
theorem claim_C8_witness :
    ((runDescribeTail
        (executorGetRound
          [⟨"alpha", "alpha", "ns", "", true, []⟩]
          [⟨"alpha", false, [], "", some "no kubeconfig context mapped for cluster alpha"⟩])
        "pods").2.2 ≠ none
      ↔ (executorGetRound
          [⟨"alpha", "alpha", "ns", "", true, []⟩]
          [⟨"alpha", false, [], "", some "no kubeconfig context mapped for cluster alpha"⟩]).Summary.Successful
        = 0)
    ∧ (runDescribeTail
        (executorGetRound
          [⟨"alpha", "alpha", "ns", "", true, []⟩]
          [⟨"alpha", false, [], "", some "no kubeconfig context mapped for cluster alpha"⟩])
        "pods").2.1 = false := by
  have h := claim_C8_failure_semantics
    [⟨"alpha", "alpha", "ns", "", true, []⟩]
    (fun c => ⟨c.Name, false, [], "", some "no kubeconfig context mapped for cluster alpha"⟩)
    [⟨"alpha", false, [], "", some "no kubeconfig context mapped for cluster alpha"⟩]
    "pods" (by decide) (by decide)
  exact ⟨h.2.1, h.2.2.2.2.1⟩

/-- C9: an elapsed duration of 45 seconds renders `"45s"`, 90 seconds `"1m"`,
25 hours `"1d"` (the coarsest applicable unit); a missing, empty or
unparseable creation timestamp renders the `"<none>"` placeholder, never an
error (the age computation is a total function). -/
theorem claim_C9_age_formatting :
    (∀ (parse : String → Option Int) (now : Int), calculateAge parse now none = noneValue)
    ∧ (∀ (parse : String → Option Int) (now : Int), calculateAge parse now (some "") = noneValue)
    ∧ (∀ (parse : String → Option Int) (now : Int) (s : String),
        parse s = none → calculateAge parse now (some s) = noneValue)
    ∧ formatDuration (45 * 1000000000) = "45s"
    ∧ formatDuration (90 * 1000000000) = "1m"
    ∧ formatDuration (25 * 3600 * 1000000000) = "1d" := by
  refine ⟨fun parse now => rfl, fun parse now => rfl, ?_, by decide, by decide, by decide⟩
  intro parse now s hs
  unfold calculateAge
  cases he : (s == "") with
  | true => simp [he]
  | false => simp [he, hs]

/-- Witness for C9: an unparseable timestamp renders the placeholder. -/
theorem claim_C9_witness :
    calculateAge (fun _ => none) 0 (some "not-a-timestamp") = noneValue :=
  claim_C9_age_formatting.2.2.1 (fun _ => none) 0 "not-a-timestamp" rfl

/-- Witness for C2: the two-cluster all-failing round of the C1 witness, names
pairwise distinct, delivered in reverse order. -/
theorem claim_C2_witness :
    (executorGetRound
        [⟨"alpha", "alpha", "ns", "", true, []⟩, ⟨"beta", "beta", "ns", "", true, []⟩]
        [⟨"beta", false, [], "", some "no kubeconfig context mapped for cluster beta"⟩,
         ⟨"alpha", false, [], "", some "no kubeconfig context mapped for cluster alpha"⟩]).Summary.Successful
        + (executorGetRound
            [⟨"alpha", "alpha", "ns", "", true, []⟩, ⟨"beta", "beta", "ns", "", true, []⟩]
            [⟨"beta", false, [], "", some "no kubeconfig context mapped for cluster beta"⟩,
             ⟨"alpha", false, [], "", some "no kubeconfig context mapped for cluster alpha"⟩]).Summary.Failed
      = (executorGetRound
          [⟨"alpha", "alpha", "ns", "", true, []⟩, ⟨"beta", "beta", "ns", "", true, []⟩]
          [⟨"beta", false, [], "", some "no kubeconfig context mapped for cluster beta"⟩,
           ⟨"alpha", false, [], "", some "no kubeconfig context mapped for cluster alpha"⟩]).Summary.Total
    ∧ (executorGetRound
        [⟨"alpha", "alpha", "ns", "", true, []⟩, ⟨"beta", "beta", "ns", "", true, []⟩]
        [⟨"beta", false, [], "", some "no kubeconfig context mapped for cluster beta"⟩,
         ⟨"alpha", false, [], "", some "no kubeconfig context mapped for cluster alpha"⟩]).Summary.Errors.length
      = ([⟨"beta", false, [], "", some "no kubeconfig context mapped for cluster beta"⟩,
          ⟨"alpha", false, [], "", some "no kubeconfig context mapped for cluster alpha"⟩]
          : List ClusterResult).countP failedWithError := by
  have h := claim_C2_summary_accounting
    [⟨"alpha", "alpha", "ns", "", true, []⟩, ⟨"beta", "beta", "ns", "", true, []⟩]
    (fun c => ⟨c.Name, false, [], "", some ("no kubeconfig context mapped for cluster " ++ c.Name)⟩)
    [⟨"beta", false, [], "", some "no kubeconfig context mapped for cluster beta"⟩,
     ⟨"alpha", false, [], "", some "no kubeconfig context mapped for cluster alpha"⟩]
    (by decide) (fun c => rfl) (by decide)
  exact ⟨h.1, h.2.1⟩

/-- C6: list-style aggregation is deterministic under completion order — for
any permutation of the `Results` sequence the rendered rows carry the same
key sequence, that sequence is ascending in the three-part lexicographic key
(cluster name, then namespace, then object name), and every rendered item
comes from a successful cluster (failed clusters' items are discarded). -/
theorem claim_C6_deterministic_order :
    ∀ (results1 results2 : List ClusterResult),
      results1.Perm results2 →
      (sortItems (collectItems results1)).map keyOf
          = (sortItems (collectItems results2)).map keyOf
      ∧ List.Pairwise keyLe ((sortItems (collectItems results1)).map keyOf)
      ∧ ∀ x ∈ sortItems (collectItems results1),
          ∃ r ∈ results1, r.Success = true ∧ x.Cluster = r.ClusterName ∧ x.Item ∈ r.Items := by
  intro rs1 rs2 hperm
  have hst1 : List.Pairwise sortLe (sortItems (collectItems rs1)) :=
    List.sorted_insertionSort sortLe (collectItems rs1)
  have hst2 : List.Pairwise sortLe (sortItems (collectItems rs2)) :=
    List.sorted_insertionSort sortLe (collectItems rs2)
  have hp1 : (sortItems (collectItems rs1)).Perm (collectItems rs1) :=
    List.perm_insertionSort sortLe (collectItems rs1)
  have hp2 : (sortItems (collectItems rs2)).Perm (collectItems rs2) :=
    List.perm_insertionSort sortLe (collectItems rs2)
  have hmk1 : List.Pairwise keyLe ((sortItems (collectItems rs1)).map keyOf) :=
    List.Pairwise.map keyOf (fun a b hab => hab) hst1
  have hmk2 : List.Pairwise keyLe ((sortItems (collectItems rs2)).map keyOf) :=
    List.Pairwise.map keyOf (fun a b hab => hab) hst2
  refine ⟨?_, hmk1, ?_⟩
  · have hcc : (collectItems rs1).Perm (collectItems rs2) := perm_flatMap _ hperm
    have hpk : ((sortItems (collectItems rs1)).map keyOf).Perm
        ((sortItems (collectItems rs2)).map keyOf) :=
      ((hp1.trans hcc).trans hp2.symm).map keyOf
    exact List.eq_of_perm_of_sorted hpk hmk1 hmk2
  · intro x hx
    have hx1 : x ∈ collectItems rs1 := hp1.mem_iff.mp hx
    rw [collectItems, List.mem_flatMap] at hx1
    obtain ⟨r, hr, hxr⟩ := hx1
    cases hsucc : r.Success with
    | false =>
        rw [hsucc] at hxr
        simp at hxr
    | true =>
        rw [hsucc] at hxr
        simp only [if_true] at hxr
        rw [List.mem_map] at hxr
        obtain ⟨item, hitem, heq⟩ := hxr
        exact ⟨r, hr, hsucc, by rw [← heq], by rw [← heq]; exact hitem⟩

/-- Witness for C6: the spec's example — clusters `zeta` (item `potato` in
`ns-b`) and `alpha` (item `apple` in `ns-a`) render the same key order for
either completion order. -/
theorem claim_C6_witness :
    (sortItems (collectItems
        [⟨"zeta", true, [⟨some "ns-b", some "potato", none⟩], "", none⟩,
         ⟨"alpha", true, [⟨some "ns-a", some "apple", none⟩], "", none⟩])).map keyOf
      = (sortItems (collectItems
          [⟨"alpha", true, [⟨some "ns-a", some "apple", none⟩], "", none⟩,
           ⟨"zeta", true, [⟨some "ns-b", some "potato", none⟩], "", none⟩])).map keyOf :=
  (claim_C6_deterministic_order
    [⟨"zeta", true, [⟨some "ns-b", some "potato", none⟩], "", none⟩,
     ⟨"alpha", true, [⟨some "ns-a", some "apple", none⟩], "", none⟩]
    [⟨"alpha", true, [⟨some "ns-a", some "apple", none⟩], "", none⟩,
     ⟨"zeta", true, [⟨some "ns-b", some "potato", none⟩], "", none⟩]
    (by decide)).1

/-- C7: when the successful clusters contribute zero items (including the case
where every cluster failed), list aggregation renders exactly the single
`"No resources found"` notice and returns `nil`; and aggregation never returns
an error for any input (emptiness is never an aggregation error). -/
theorem claim_C7_empty_notice :
    (∀ (results : List ClusterResult) (resourceType : String),
        (∀ r ∈ results, r.Success = true → r.Items = []) →
        AggregateGetResults results resourceType = (.noResourcesFound, none))
    ∧ (∀ (results : List ClusterResult) (resourceType : String),
        (AggregateGetResults results resourceType).2 = none) := by
  constructor
  · intro results resourceType h
    have hnil : collectItems results = [] := (collectItems_eq_nil_iff results).mpr h
    simp [AggregateGetResults, hnil]
  · intro results resourceType
    dsimp only [AggregateGetResults]
    split
    · rfl
    · rfl

/-- Witness for C7: a round where every cluster failed (one of them even holds
stale items, which aggregation must ignore) renders the single notice with no
error. -/
theorem claim_C7_witness :
    AggregateGetResults
        [⟨"c1", false, [⟨some "ns", some "pod-1", none⟩], "", some "query failed"⟩,
         ⟨"c2", false, [], "", some "query failed"⟩] "pods"
      = (.noResourcesFound, none) :=
  claim_C7_empty_notice.1
    [⟨"c1", false, [⟨some "ns", some "pod-1", none⟩], "", some "query failed"⟩,
     ⟨"c2", false, [], "", some "query failed"⟩] "pods" (by decide)

/-- Witness for C3: the empty-filter identity on a concrete directory. -/
theorem claim_C3_witness :
    filterClusters [⟨"prod-1", "prod-1", "ns", "", true, []⟩] [] []
      = [⟨"prod-1", "prod-1", "ns", "", true, []⟩] :=
  (claim_C3_selector_semantics [⟨"prod-1", "prod-1", "ns", "", true, []⟩] [] []).2.1

/-- Witness for C5: a record with no conditions list parses as unhealthy. -/
theorem claim_C5_witness :
    (parseClusterProfile ⟨"c", "ns", [], none, none, none⟩).Healthy = false :=
  (claim_C5_healthy_iff ⟨"c", "ns", [], none, none, none⟩).2.1 rfl

/-- Witness for C10: the selector output is a subsequence of a concrete
two-cluster directory. -/
theorem claim_C10_witness :
    (filterClusters
        [⟨"prod-1", "prod-1", "ns", "", true, []⟩, ⟨"staging-1", "staging-1", "ns", "", true, []⟩]
        ["prod-*"] []).Sublist
      [⟨"prod-1", "prod-1", "ns", "", true, []⟩, ⟨"staging-1", "staging-1", "ns", "", true, []⟩] :=
  (claim_C10_selector_subsequence
    [⟨"prod-1", "prod-1", "ns", "", true, []⟩, ⟨"staging-1", "staging-1", "ns", "", true, []⟩]
    ["prod-*"] []).1

end KubectlMC
